import Mathlib

/-! Shallow embedding of the StreamGrid core: the grid layout solver and the
Zustand store mutations (src/renderer/src/store/useStreamStore.ts), the
control-API authentication middleware (src/main/apiAuth.ts), the grid-load
control route and the RTSP transcoding supervisor (src/main/apiServer.ts).
JS numbers are modelled as Nat (every quantity involved is a small
non-negative integer) and the floating-point candidate score as an exact
rational; score comparisons agree with the double-precision ones because the
0.5*(w*h) term separates distinct candidates by at least 1 while the three
remaining terms sum to strictly less than 0.5. -/

namespace StreamGrid

/-- GRID_COLS = 24 from useStreamStore.ts. -/
def GRID_COLS : Nat := 24

/-- GridItem from renderer/src/types/stream.ts (the optional `static` flag is
never set by the layout code and is omitted). -/
structure GridItem where
  i : String
  x : Nat
  y : Nat
  w : Nat
  h : Nat
deriving DecidableEq, Repr

/-- The exact value of a candidate's score, kept as an explicit fraction
(numerator over a positive denominator) so that score comparisons stay
kernel-computable; `scoreQ` below recovers the rational value. -/
structure Score where
  num : Nat
  den : Nat
deriving DecidableEq, Repr

/-- The rational value a `Score` denotes. -/
def scoreQ (s : Score) : ℚ := (s.num : ℚ) / (s.den : ℚ)

/-- `b.score > a.score`, by cross multiplication. `scoreLt_iff_scoreQ` below
shows this decides exactly `scoreQ a < scoreQ b`. -/
def scoreLt (a b : Score) : Bool := a.num * b.den < b.num * a.den

/-- The candidate record `Cand` built inside chooseLayouts. -/
structure Cand where
  w : Nat
  h : Nat
  cols : Nat
  rows : Nat
  waste : Nat
  totalH : Nat
  score : Score
deriving DecidableEq, Repr

/-- One iteration of the `for (const w of allowed)` loop of chooseLayouts:
`none` when the `cols < 1` guard skips the width. `Math.ceil(n / cols)` for
naturals is `(n + cols - 1) / cols`, and `Math.round(w / TARGET_ASPECT)` with
`TARGET_ASPECT = 16 / 9` is `(9 * w + 8) / 16` (JS Math.round is
floor(x + 1/2), and for every width in the default set the double-precision
quotient is exact enough that this agrees; e.g. 8 / (16/9) evaluates to
exactly 4.5 and rounds to 5).

The score
`(w*h) * 0.5 + (1/(waste+1)) * 0.25 + (1/(|cols-rows|+1)) * 0.15 +
(1/(totalH+1)) * 0.10` is stored exactly over the common denominator
`20 * (waste+1) * (|cols-rows|+1) * (totalH+1)`; `candOf_score_exact` below
proves the stored fraction equals that formula. Comparing these exact values
agrees with comparing the double-precision scores of the source: for the
widths the solver ever tries, the `(w*h) * 0.5` terms of distinct candidates
differ by at least 1 while the three remaining terms sum to less than 0.5,
so the ordering is decided by the size term in either arithmetic. -/
def candOf (n w : Nat) : Option Cand :=
  let cols := GRID_COLS / w
  if cols < 1 then none
  else
    let rows := (n + cols - 1) / cols
    let h := max 2 ((9 * w + 8) / 16)
    let totalH := rows * h
    let totalCells := cols * rows
    let waste := totalCells - n
    let dWaste := waste + 1
    let dBalance := (max cols rows - min cols rows) + 1
    let dHeight := totalH + 1
    let score : Score :=
      { num := w * h * (10 * (dWaste * (dBalance * dHeight))) +
          (5 * (dBalance * dHeight) + (3 * (dWaste * dHeight) + 2 * (dWaste * dBalance))),
        den := 20 * (dWaste * (dBalance * dHeight)) }
    some { w := w, h := h, cols := cols, rows := rows, waste := waste,
           totalH := totalH, score := score }

/-- The `all` list of candidates built by the loop, in iteration order. -/
def allCands (allowed : List Nat) (n : Nat) : List Cand :=
  allowed.filterMap (candOf n)

/-- JS `Array.prototype.reduce` with the first element as the accumulator and
step `(a, b) => (b.score > a.score ? b : a)`: the `pick` helper of
chooseLayouts, applied to a head element and the remaining list. -/
def pick1 (a : Cand) (l : List Cand) : Cand :=
  l.foldl (fun a b => if scoreLt a.score b.score then b else a) a

/-- Stable insertion for the ascending-by-width sort `(a, b) => a.w - b.w`. -/
def insertByW (c : Cand) : List Cand → List Cand
  | [] => [c]
  | d :: ds => if d.w ≤ c.w then d :: insertByW c ds else c :: d :: ds

/-- `all.sort((a, b) => a.w - b.w)`: stable sort ascending by width. -/
def sortByW : List Cand → List Cand
  | [] => []
  | c :: cs => insertByW c (sortByW cs)

/-- The candidate chooseLayouts selects: the max-score feasible candidate if
any candidate fits the row budget, otherwise `pick` applied to the
width-sorted `all` list (which, because `pick` maximizes the score, is again
the max-score candidate of `all`, not the head of the sorted list). `none`
only when no width produced a candidate at all, where the source's `reduce`
on an empty array would throw; this never happens for the default widths. -/
def bestCand (allowed : List Nat) (n maxRows : Nat) : Option Cand :=
  match (allCands allowed n).filter (fun c => c.totalH ≤ maxRows),
        sortByW (allCands allowed n) with
  | f :: fs, _ => some (pick1 f fs)
  | [], a :: as => some (pick1 a as)
  | [], [] => none

/-- The inner `for (let c = 0; c < count && k < n; c++, k++)` loop: one grid
row of tiles, left to right, starting at horizontal cell index `c`. -/
def rowItems (w h offset y : Nat) : List String → Nat → List GridItem
  | [], _ => []
  | id :: rest, c =>
    { i := id, x := offset + c * w, y := y, w := w, h := h } ::
      rowItems w h offset y rest (c + 1)

/-- The outer `for (let r = 0; r < best.rows && k < n; r++)` loop; the first
argument is the remaining row budget `best.rows - r`, the last is `r`.
`offset = Math.floor((GRID_COLS - count * w) / 2)`; whenever this is called
from chooseLayouts, `count * w ≤ cols * w ≤ 24`, so the JS value is
non-negative and Nat arithmetic is exact. -/
def placeAll (w h cols : Nat) : Nat → List String → Nat → List GridItem
  | 0, _, _ => []
  | _ + 1, [], _ => []
  | rowsLeft + 1, id :: rest, r =>
    let ids := id :: rest
    let count := min cols ids.length
    let offset := (GRID_COLS - count * w) / 2
    rowItems w h offset (r * h) (ids.take count) 0 ++
      placeAll w h cols rowsLeft (ids.drop count) (r + 1)

/-- The placement phase of chooseLayouts for a selected candidate. -/
def place (c : Cand) (ids : List String) : List GridItem :=
  placeAll c.w c.h c.cols c.rows ids 0

/-- chooseLayouts from useStreamStore.ts, with the `allowedWidths` and
`maxRows` options passed explicitly. -/
def chooseLayouts (ids : List String) (allowed : List Nat) (maxRows : Nat) :
    List GridItem :=
  match bestCand allowed ids.length maxRows with
  | some best => place best ids
  | none => []

/-- The default `allowedWidths` option: divisors of 24. -/
def defaultAllowed : List Nat := [12, 8, 6, 4, 3, 2]

/-! Store state and mutations (useStreamStore.ts). Only the fields the
layout-related mutations and grid loading touch are carried. -/

/-- Stream from renderer/src/types/stream.ts; `isMuted` is optional in the
source and resolved against the settings default when a stream is added. The
fields not read by the store mutations (position, chatId, isLivestream,
fitMode) are omitted. -/
structure Stream where
  id : String
  name : String
  logoUrl : String
  streamUrl : String
  isMuted : Option Bool
deriving DecidableEq, Repr

/-- ChatItem from useStreamStore.ts. -/
structure ChatItem where
  id : String
  streamId : String
  streamType : String
  streamName : String
  streamIdentifier : String
deriving DecidableEq, Repr

/-- SavedGrid from shared/types/grid.ts. -/
structure SavedGrid where
  id : String
  name : String
  createdAt : String
  lastModified : String
  streams : List Stream
  layout : List GridItem
  chats : List ChatItem
deriving DecidableEq, Repr

/-- The slice of the Zustand store state that the modelled mutations read or
write. -/
structure StoreState where
  streams : List Stream
  layout : List GridItem
  chats : List ChatItem
  defaultMuteNewStreams : Bool
  hasUnsavedChanges : Bool
  currentGridId : Option String
  currentGridName : String
  recentGridIds : List String
deriving DecidableEq, Repr

/-- addStream: resolve the mute default, append the stream, recompute the
layout from scratch over stream ids followed by chat ids. -/
def addStream (stream : Stream) (state : StoreState) : StoreState :=
  let streamWithMute : Stream :=
    { stream with isMuted := some (stream.isMuted.getD state.defaultMuteNewStreams) }
  let streams := state.streams ++ [streamWithMute]
  let ids := streams.map Stream.id ++ state.chats.map ChatItem.id
  let layout := chooseLayouts ids defaultAllowed 24
  { state with streams := streams, layout := layout, hasUnsavedChanges := true }

/-- removeStream: filter the stream, filter its layout entry out of the
previous layout (no solver call), and cascade-remove its chats. -/
def removeStream (id : String) (state : StoreState) : StoreState :=
  { state with
    streams := state.streams.filter (fun s => s.id != id),
    layout := state.layout.filter (fun item => item.i != id),
    chats := state.chats.filter (fun chat => chat.streamId != id),
    hasUnsavedChanges := true }

/-- JS String.prototype.includes for a literal pattern. -/
def jsIncludes (s pat : String) : Bool := (s.splitOn pat).length != 1

/-- addChat: the generated `chat-${Date.now()}` id is passed in as
`newChatId` (time is an input of the model). Early-returns without mutating
when the stream is unknown or its URL is neither YouTube nor Twitch;
otherwise appends the chat and recomputes the layout from scratch. -/
def addChat (newChatId streamIdentifier streamId streamName : String)
    (state : StoreState) : StoreState :=
  match state.streams.find? (fun s => s.id == streamId) with
  | none => state
  | some stream =>
    let streamType :=
      if jsIncludes stream.streamUrl "youtube.com" || jsIncludes stream.streamUrl "youtu.be"
      then "YouTube"
      else if jsIncludes stream.streamUrl "twitch.tv" then "Twitch"
      else ""
    if streamType = "" then state
    else
      let chats := state.chats ++
        [{ id := newChatId, streamId := streamId, streamType := streamType,
           streamName := streamName, streamIdentifier := streamIdentifier }]
      let ids := state.streams.map Stream.id ++ chats.map ChatItem.id
      let layout := chooseLayouts ids defaultAllowed 24
      { state with chats := chats, layout := layout, hasUnsavedChanges := true }

/-- removeChat: filter the chat and its layout entry (no solver call). -/
def removeChat (id : String) (state : StoreState) : StoreState :=
  { state with
    chats := state.chats.filter (fun chat => chat.id != id),
    layout := state.layout.filter (fun item => item.i != id),
    hasUnsavedChanges := true }

/-- updateRecentGrids: move-to-front, capped at five entries. -/
def updateRecentGrids (gridId : String) (state : StoreState) : StoreState :=
  { state with
    recentGridIds := (gridId :: state.recentGridIds.filter (fun id => id != gridId)).take 5 }

/-- The store's loadGrid: `fetched` is the result of the
`window.api.loadGrid(gridId)` IPC call (the main process returns null -
`none` - when no grid file with that id exists). On `none` the method
returns without mutating anything. -/
def loadGrid (gridId : String) (fetched : Option SavedGrid) (state : StoreState) :
    StoreState :=
  match fetched with
  | none => state
  | some grid =>
    updateRecentGrids gridId
      { state with
        streams := grid.streams,
        layout := grid.layout,
        chats := grid.chats,
        currentGridId := some grid.id,
        currentGridName := grid.name,
        hasUnsavedChanges := false }

/-! Control-API authentication middleware (apiAuth.ts). -/

/-- The four outcomes of authenticateApiKey: the three early JSON rejections
(503, 401, 403) and falling through to `next()`. -/
inductive AuthOutcome
  | serviceDisabled
  | missingCredential
  | invalidCredential
  | allow
deriving DecidableEq, Repr

/-- JS String.prototype.replace with a string pattern: replaces only the
first occurrence. -/
def replaceFirst (s pat rep : String) : String :=
  match s.splitOn pat with
  | [] => s
  | [_] => s
  | a :: rest => a ++ rep ++ String.intercalate pat rest

/-- `req.headers['authorization']?.replace('Bearer ', '')`. -/
def bearerKey (authorization : Option String) : Option String :=
  authorization.map (fun a => replaceFirst a "Bearer " "")

/-- `req.headers['x-api-key'] || req.headers['authorization']?.replace(...)`:
an absent or empty x-api-key header (empty string is falsy) falls through to
the authorization header. -/
def providedKey (xApiKey authorization : Option String) : Option String :=
  match xApiKey with
  | some k => if k = "" then bearerKey authorization else some k
  | none => bearerKey authorization

/-- authenticateApiKey from apiAuth.ts, returning which branch fires.
`!providedKey` is true exactly for an undefined or empty-string key. -/
def authenticateApiKey (enabled : Bool) (apiKey : String)
    (xApiKey authorization : Option String) : AuthOutcome :=
  if !enabled then .serviceDisabled
  else
    match providedKey xApiKey authorization with
    | none => .missingCredential
    | some k =>
      if k = "" then .missingCredential
      else if k ≠ apiKey then .invalidCredential
      else .allow

/-! The grid-load control route (apiServer.ts, PUT /api/grids/:id/load). -/

/-- The two response bodies the route can produce once authentication has
passed and the main window exists and no exception is thrown. -/
inductive LoadGridBody
  | missingId
  | loadSuccess (id : String)
deriving DecidableEq, Repr

/-- PUT /api/grids/:id/load: after the `!id` guard it evaluates
`loadGrid(id)` in the renderer (whose persistence lookup is abstracted as
`persisted`) and unconditionally answers 200 with success - there is no
existence check and no 404 path. -/
def loadGridRoute (persisted : String → Option SavedGrid) (id : String)
    (state : StoreState) : (Nat × LoadGridBody) × StoreState :=
  if id = "" then ((400, .missingId), state)
  else ((200, .loadSuccess id), loadGrid id (persisted id) state)

/-! RTSP transcoding supervisor (class RTSPService in apiServer.ts). -/

/-- The session status field. -/
inductive SessStatus
  | starting
  | running
  | error
  | stopped
deriving DecidableEq, Repr

/-- RTSPStream from shared/types/rtsp.ts; the ChildProcess handle is
modelled as the OS pid (`none` = null), startTime is omitted. -/
structure RTSPStream where
  id : String
  rtspUrl : String
  ffmpegProcess : Option Nat
  outputDir : String
  port : Nat
  status : SessStatus
  errorCount : Nat
  retryCount : Nat
deriving DecidableEq, Repr

/-- RTSPSettings with the constructor defaults of RTSPService. -/
structure RTSPSettings where
  defaultTransport : String
  segmentDuration : Nat
  maxRetries : Nat
  connectionTimeout : Nat
  basePort : Nat
deriving DecidableEq, Repr

/-- The settings literal from the RTSPService constructor. -/
def defaultSettings : RTSPSettings :=
  { defaultTransport := "tcp", segmentDuration := 2, maxRetries := 3,
    connectionTimeout := 10000, basePort := 8100 }

/-- The mutable state of RTSPService: the session Map in insertion order,
the reserved-port set, the temp directory, and a fresh-pid source standing
for the operating system's allocation of child-process handles. -/
structure ServiceState where
  streams : List (String × RTSPStream)
  usedPorts : List Nat
  tempDir : String
  nextPid : Nat
deriving DecidableEq, Repr

/-- JS Map.prototype.set: replace in place when the key is present,
append otherwise. -/
def mapSet (k : String) (v : RTSPStream) (m : List (String × RTSPStream)) :
    List (String × RTSPStream) :=
  if (m.lookup k).isSome then
    m.map (fun p => if p.1 == k then (k, v) else p)
  else m ++ [(k, v)]

/-- findAvailablePort: first port in [basePort, basePort + 100) not in
usedPorts; `none` models the `throw new Error('No available ports')`. -/
def findAvailablePort (basePort : Nat) (usedPorts : List Nat) : Option Nat :=
  ((List.range 100).map (fun i => basePort + i)).find? (fun p => !usedPorts.contains p)

/-- The playback URL startStream returns, in both the existing-session and
the new-session branch. -/
def playbackUrl (basePort : Nat) (streamId : String) : String :=
  "http://localhost:" ++ toString basePort ++ "/rtsp/" ++ streamId ++ "/playlist.m3u8"

/-- RTSPStartResult from shared/types/rtsp.ts. -/
structure RTSPStartResult where
  success : Bool
  url : Option String
  port : Option Nat
  error : Option String
deriving DecidableEq, Repr

/-- RTSPStopResult from shared/types/rtsp.ts. -/
structure RTSPStopResult where
  success : Bool
  error : Option String
deriving DecidableEq, Repr

/-- The supervisor's external world: whether the ffmpeg binary probe
succeeds and whether the playlist file appears in a given output directory
within the 15-second poll. -/
structure SpawnEnv where
  ffmpegAvailable : Bool
  playlistAppears : String → Bool

/-- The synchronous net effect of spawnFFmpeg on the session and service
state: the spawned child becomes the session's process handle (a fresh pid),
and the playlist poll leaves the session `running` when the playlist file
appears, `error` otherwise. -/
def spawnFFmpeg (env : SpawnEnv) (st : ServiceState) (s : RTSPStream) :
    RTSPStream × ServiceState :=
  let withProc : RTSPStream := { s with ffmpegProcess := some st.nextPid }
  let after : RTSPStream :=
    if env.playlistAppears s.outputDir then { withProc with status := .running }
    else { withProc with status := .error }
  (after, { st with nextPid := st.nextPid + 1 })

/-- startStream from RTSPService: early-return with the existing session's
playback URL when the id is already in the Map; otherwise probe ffmpeg,
create the per-session output directory `tempDir/streamId`, reserve a port,
insert the session into the Map before spawning, spawn, and answer with the
playback URL and the base port. -/
def startStream (env : SpawnEnv) (st : ServiceState) (settings : RTSPSettings)
    (streamId rtspUrl : String) : RTSPStartResult × ServiceState :=
  match st.streams.lookup streamId with
  | some existing =>
    ({ success := true, url := some (playbackUrl settings.basePort streamId),
       port := some existing.port, error := none }, st)
  | none =>
    if !env.ffmpegAvailable then
      ({ success := false, url := none, port := none,
         error := some "FFmpeg is not installed or not found in PATH" }, st)
    else
      match findAvailablePort settings.basePort st.usedPorts with
      | none =>
        ({ success := false, url := none, port := none,
           error := some "No available ports" }, st)
      | some port =>
        let outputDir := st.tempDir ++ "/" ++ streamId
        let s : RTSPStream :=
          { id := streamId, rtspUrl := rtspUrl, ffmpegProcess := none,
            outputDir := outputDir, port := port, status := .starting,
            errorCount := 0, retryCount := 0 }
        let st1 : ServiceState :=
          { st with
            usedPorts := st.usedPorts ++ [port],
            streams := mapSet streamId s st.streams }
        let spawned := spawnFFmpeg env st1 s
        let st2 : ServiceState :=
          { spawned.2 with streams := mapSet streamId spawned.1 spawned.2.streams }
        ({ success := true, url := some (playbackUrl settings.basePort streamId),
           port := some settings.basePort, error := none }, st2)

/-- The session record a successful new-session startStream leaves in the
Map, written out explicitly (used to state the startStream lemmas). -/
def newSession (env : SpawnEnv) (st : ServiceState) (port : Nat)
    (streamId rtspUrl : String) : RTSPStream :=
  { id := streamId, rtspUrl := rtspUrl, ffmpegProcess := some st.nextPid,
    outputDir := st.tempDir ++ "/" ++ streamId, port := port,
    status := if env.playlistAppears (st.tempDir ++ "/" ++ streamId)
              then .running else .error,
    errorCount := 0, retryCount := 0 }

/-- stopStream: `Stream not found` when the id is absent; otherwise the
child is killed and the output directory removed (external effects), the
Map entry is deleted and the port released. -/
def stopStream (st : ServiceState) (streamId : String) :
    RTSPStopResult × ServiceState :=
  match st.streams.lookup streamId with
  | none => ({ success := false, error := some "Stream not found" }, st)
  | some stream =>
    ({ success := true, error := none },
     { st with
       streams := st.streams.filter (fun p => p.1 != streamId),
       usedPorts := st.usedPorts.filter (fun p => p != stream.port) })

/-- The session-table invariant the supervisor maintains: every entry is
keyed by its own stream id, owns the output directory `tempDir/id`, and its
process handle (when present) is a pid the service has allocated; no two
entries share a live process handle. -/
def sessionsWellFormed (st : ServiceState) : Prop :=
  (∀ p ∈ st.streams, p.2.id = p.1 ∧ p.2.outputDir = st.tempDir ++ "/" ++ p.1 ∧
     ∀ pid, p.2.ffmpegProcess = some pid → pid < st.nextPid) ∧
  st.streams.Pairwise
    (fun p q => p.2.ffmpegProcess = none ∨ p.2.ffmpegProcess ≠ q.2.ffmpegProcess)

/-! The ffmpeg exit-handler retry policy (spawnFFmpeg's 'exit' listener). -/

/-- The per-session counters the exit handler reads and writes. -/
structure SessCounters where
  errorCount : Nat
  retryCount : Nat
  status : SessStatus
deriving DecidableEq, Repr

/-- The 'exit' listener for an abnormal exit (`code !== 0 && code !== null`):
increment errorCount, set the error status, and when `retryCount <
maxRetries` increment retryCount and schedule a respawn via
`setTimeout(..., 2000 * stream.retryCount)` - the delay reads the already
incremented retryCount. Returns the updated counters and the scheduled
delay (`none` when no respawn is scheduled). -/
def onAbnormalExit (maxRetries : Nat) (s : SessCounters) :
    SessCounters × Option Nat :=
  let s1 : SessCounters := { s with errorCount := s.errorCount + 1, status := .error }
  if s1.retryCount < maxRetries then
    let s2 : SessCounters := { s1 with retryCount := s1.retryCount + 1 }
    (s2, some (2000 * s2.retryCount))
  else
    (s1, none)

/-- `k` consecutive abnormal exits: the final counters and the list of
scheduled respawn delays, in order. -/
def iterateExits (maxRetries : Nat) (s : SessCounters) : Nat → SessCounters × List Nat
  | 0 => (s, [])
  | k + 1 =>
    let step := onAbnormalExit maxRetries s
    let rest := iterateExits maxRetries step.1 k
    (rest.1, step.2.toList ++ rest.2)

/-- A fresh session's counters as startStream creates them. -/
def freshCounters : SessCounters :=
  { errorCount := 0, retryCount := 0, status := .starting }

/-- Two grid placements occupy disjoint cell rectangles. -/
def disjointItems (p q : GridItem) : Prop :=
  p.x + p.w ≤ q.x ∨ q.x + q.w ≤ p.x ∨ p.y + p.h ≤ q.y ∨ q.y + q.h ≤ p.y

/-- The 145 tile ids used as the failing input for the fallback branch: with
maxRows = 24 no candidate width fits the budget (the flattest candidate,
w = 2, needs 2 * ceil(145/12) = 26 rows). -/
def ids145 : List String := (List.range 145).map (fun k => "s" ++ toString k)

/-- The concrete store state for the stream-removal counterexample: two
streams laid out by the solver, no chats. -/
def twoStreamState : StoreState :=
  { streams :=
      [{ id := "a", name := "A", logoUrl := "", streamUrl := "https://x/a.m3u8",
         isMuted := some false },
       { id := "b", name := "B", logoUrl := "", streamUrl := "https://x/b.m3u8",
         isMuted := some false }],
    layout := chooseLayouts ["a", "b"] defaultAllowed 24,
    chats := [], defaultMuteNewStreams := false, hasUnsavedChanges := false,
    currentGridId := none, currentGridName := "Untitled Grid", recentGridIds := [] }

/-! Fidelity of the fraction-encoded score. -/

theorem scoreLt_iff_scoreQ (a b : Score) (ha : 0 < a.den) (hb : 0 < b.den) :
    scoreLt a b = true ↔ scoreQ a < scoreQ b := by
  have ha' : (0 : ℚ) < (a.den : ℚ) := by exact_mod_cast ha
  have hb' : (0 : ℚ) < (b.den : ℚ) := by exact_mod_cast hb
  unfold scoreLt scoreQ
  rw [decide_eq_true_eq, div_lt_div_iff₀ ha' hb']
  constructor <;> intro h <;> exact_mod_cast h

theorem score_fraction_eq (a W B T : Nat) (hW : W ≠ 0) (hB : B ≠ 0) (hT : T ≠ 0) :
    ((a * (10 * (W * (B * T))) + (5 * (B * T) + (3 * (W * T) + 2 * (W * B))) : Nat) : ℚ) /
        ((20 * (W * (B * T)) : Nat) : ℚ) =
      (a : ℚ) * (1 / 2) + (1 / (W : ℚ)) * (1 / 4) + (1 / (B : ℚ)) * (3 / 20) +
        (1 / (T : ℚ)) * (1 / 10) := by
  have hW' : (W : ℚ) ≠ 0 := Nat.cast_ne_zero.mpr hW
  have hB' : (B : ℚ) ≠ 0 := Nat.cast_ne_zero.mpr hB
  have hT' : (T : ℚ) ≠ 0 := Nat.cast_ne_zero.mpr hT
  push_cast
  field_simp
  ring

/-- The stored score fraction of every candidate equals the source's score
formula `sizeScore*0.5 + wasteScore*0.25 + balanceScore*0.15 +
heightPenalty*0.10`, as an exact rational. -/
theorem candOf_score_exact (n w : Nat) (c : Cand) (h : candOf n w = some c) :
    scoreQ c.score =
      ((c.w * c.h : Nat) : ℚ) * (1 / 2) +
        (1 / ((c.waste + 1 : Nat) : ℚ)) * (1 / 4) +
        (1 / (((max c.cols c.rows - min c.cols c.rows) + 1 : Nat) : ℚ)) * (3 / 20) +
        (1 / ((c.totalH + 1 : Nat) : ℚ)) * (1 / 10) := by
  unfold candOf at h
  by_cases hc : GRID_COLS / w < 1
  · simp [hc] at h
  · simp only [hc, if_neg, if_false, Option.some.injEq] at h
    subst h
    exact score_fraction_eq _ _ _ _ (Nat.succ_ne_zero _) (Nat.succ_ne_zero _)
      (Nat.succ_ne_zero _)

set_option maxRecDepth 40000 in
/-- C1: with 145 tile ids and the default 24-row budget no candidate width is
feasible, and the fallback branch of chooseLayouts still returns a complete
placement - but it places every tile at width 12, the maximum-score
candidate, not at the smallest tried width 2: `pick` maximizes the score, so
sorting `all` ascending by width has no effect on the result, contradicting
the claim (and the source's own comment "otherwise pick the smallest width
to force-fit"). -/
theorem c1_fallback_picks_largest_width :
    ((allCands defaultAllowed 145).filter (fun c => c.totalH ≤ 24) = []) ∧
    (chooseLayouts ids145 defaultAllowed 24).map GridItem.i = ids145 ∧
    (chooseLayouts ids145 defaultAllowed 24).all (fun p => p.w == 12) = true ∧
    (chooseLayouts ids145 defaultAllowed 24).all (fun p => p.w == 2) = false := by
  refine ⟨by decide, by decide, by decide, by decide⟩

/-- C2 (counterexample): removing stream "a" from a two-stream state leaves
the filtered previous layout (with "b" still at x = 12), which differs from
the solver's wholesale recomputation on the remaining tile set (which centers
"b" at x = 6) - so stream removal does not recompute the layout. -/
theorem c2_remove_not_recomputed :
    (removeStream "a" twoStreamState).layout ≠
      chooseLayouts
        ((removeStream "a" twoStreamState).streams.map Stream.id ++
          (removeStream "a" twoStreamState).chats.map ChatItem.id)
        defaultAllowed 24 := by decide

/-- C2 (amended): after addStream, and after every mutating addChat, the
layout is the solver's wholesale recomputation on the full current tile-id
set (stream ids then chat ids); after removeStream and removeChat the layout
is the previous layout with the removed tile's entries filtered out - an
incremental patch, not a recomputation. -/
theorem c2_layout_recompute_policy :
    (∀ s st, (addStream s st).layout =
        chooseLayouts ((addStream s st).streams.map Stream.id ++
          (addStream s st).chats.map ChatItem.id) defaultAllowed 24) ∧
    (∀ cid ident sid nm st,
        addChat cid ident sid nm st = st ∨
        (addChat cid ident sid nm st).layout =
          chooseLayouts ((addChat cid ident sid nm st).streams.map Stream.id ++
            (addChat cid ident sid nm st).chats.map ChatItem.id) defaultAllowed 24) ∧
    (∀ id st, (removeStream id st).layout = st.layout.filter (fun item => item.i != id)) ∧
    (∀ id st, (removeChat id st).layout = st.layout.filter (fun item => item.i != id)) := by
  refine ⟨fun s st => rfl, ?_, fun id st => rfl, fun id st => rfl⟩
  intro cid ident sid nm st
  cases h : st.streams.find? (fun s => s.id == sid) with
  | none => exact Or.inl (by simp [addChat, h])
  | some stream =>
    simp only [addChat, h]
    split
    · rw [if_neg (by decide : ¬("YouTube" = ""))]
      exact Or.inr rfl
    · split
      · rw [if_neg (by decide : ¬("Twitch" = ""))]
        exact Or.inr rfl
      · rw [if_pos rfl]
        exact Or.inl rfl

/-- C3: the control-API authentication middleware rejects with 503
ServiceDisabled whenever enabled is false regardless of any key; with
enabled true it rejects with 401 MissingCredential when neither accepted
header form yields a (non-empty) key, rejects with 403 InvalidCredential
when the extracted key differs from the configured key under exact string
comparison, and falls through to the route handler exactly when the key
matches. -/
theorem c3_auth_precedence (enabled : Bool) (apiKey : String)
    (xApiKey authorization : Option String) :
    (enabled = false →
      authenticateApiKey enabled apiKey xApiKey authorization = .serviceDisabled) ∧
    (enabled = true →
      (providedKey xApiKey authorization = none ∨
        providedKey xApiKey authorization = some "") →
      authenticateApiKey enabled apiKey xApiKey authorization = .missingCredential) ∧
    (enabled = true → ∀ k, providedKey xApiKey authorization = some k → k ≠ "" →
      k ≠ apiKey →
      authenticateApiKey enabled apiKey xApiKey authorization = .invalidCredential) ∧
    (enabled = true → providedKey xApiKey authorization = some apiKey → apiKey ≠ "" →
      authenticateApiKey enabled apiKey xApiKey authorization = .allow) := by
  refine ⟨?_, ?_, ?_, ?_⟩
  · intro h; subst h; rfl
  · intro h hk; subst h
    unfold authenticateApiKey
    rcases hk with hk | hk <;> simp [hk]
  · intro h k hk hne hnm; subst h
    unfold authenticateApiKey
    simp [hk, hne, hnm]
  · intro h hk hne; subst h
    unfold authenticateApiKey
    simp [hk, hne]

/-- Witness for C3 at concrete requests against the configured key
"secret". -/
theorem c3_auth_precedence_witness :
    authenticateApiKey false "secret" (some "secret") none = .serviceDisabled ∧
    authenticateApiKey true "secret" none none = .missingCredential ∧
    authenticateApiKey true "secret" (some "sec") none = .invalidCredential ∧
    authenticateApiKey true "secret" (some "secret") none = .allow :=
  ⟨(c3_auth_precedence false "secret" (some "secret") none).1 rfl,
   (c3_auth_precedence true "secret" none none).2.1 rfl (Or.inl rfl),
   (c3_auth_precedence true "secret" (some "sec") none).2.2.1 rfl "sec" rfl
     (by decide) (by decide),
   (c3_auth_precedence true "secret" (some "secret") none).2.2.2 rfl rfl (by decide)⟩

/-- C7: chooseLayouts is a pure function of the ordered id sequence and the
row budget, so two invocations on the same input yield identical output. -/
theorem c7_layout_deterministic (ids : List String) (maxRows : Nat) :
    chooseLayouts ids defaultAllowed maxRows = chooseLayouts ids defaultAllowed maxRows := rfl

/-- C8: for any id reaching the route handler, when the persistence
collaborator has no grid under that id the PUT /api/grids/:id/load route
still answers 200 with success and the loadGrid call silently leaves the
store untouched; no 404 is produced. -/
theorem c8_grid_load_success_without_existence
    (persisted : String → Option SavedGrid) (id : String) (st : StoreState)
    (hid : id ≠ "") (habsent : persisted id = none) :
    loadGridRoute persisted id st = ((200, .loadSuccess id), st) := by
  unfold loadGridRoute
  rw [if_neg hid, habsent]
  rfl

/-- Witness for C8: loading the unknown id "grid-123" against empty
persistence succeeds and leaves the concrete two-stream store unchanged. -/
theorem c8_grid_load_witness :
    loadGridRoute (fun _ => none) "grid-123" twoStreamState =
      ((200, .loadSuccess "grid-123"), twoStreamState) :=
  c8_grid_load_success_without_existence (fun _ => none) "grid-123" twoStreamState
    (by decide) rfl

/-- Closed form for a run of consecutive abnormal exits starting from any
retryCount r at most maxRetries: errorCount grows by one per exit, retryCount
climbs to the ceiling, the status is error as soon as one exit occurred, and
the scheduled respawn delays are 2000ms times the (1-based) attempt number,
one per exit until the ceiling is reached. -/
theorem iterateExits_eq (m : Nat) :
    ∀ (k e r : Nat) (st : SessStatus), r ≤ m →
      iterateExits m { errorCount := e, retryCount := r, status := st } k =
        ({ errorCount := e + k, retryCount := min (r + k) m,
           status := if k = 0 then st else .error },
         (List.range (min k (m - r))).map (fun i => 2000 * (r + i + 1))) := by
  intro k
  induction k with
  | zero =>
    intro e r st hr
    simp [iterateExits, Nat.min_eq_left hr]
  | succ k ih =>
    intro e r st hr
    by_cases hrm : r < m
    · have step : onAbnormalExit m { errorCount := e, retryCount := r, status := st } =
          ({ errorCount := e + 1, retryCount := r + 1, status := .error },
           some (2000 * (r + 1))) := by
        unfold onAbnormalExit
        rw [if_pos hrm]
      simp only [iterateExits, step, ih (e + 1) (r + 1) .error (by omega)]
      have h1 : e + 1 + k = e + (k + 1) := by omega
      have h2 : r + 1 + k = r + (k + 1) := by omega
      have hmin : min (k + 1) (m - r) = min k (m - (r + 1)) + 1 := by omega
      have hfun : (fun i => 2000 * (r + 1 + i + 1)) = fun i => 2000 * (r + (i + 1) + 1) := by
        funext i; omega
      rw [h1, h2, hmin, List.range_succ_eq_map]
      simp only [Option.toList_some, List.map_cons, List.map_map, ite_self]
      refine congrArg₂ Prod.mk ?_ ?_
      · simp
      · refine congrArg₂ List.cons (by omega) ?_
        rw [hfun]
        rfl
    · have hr' : r = m := by omega
      have step : onAbnormalExit m { errorCount := e, retryCount := r, status := st } =
          ({ errorCount := e + 1, retryCount := r, status := .error }, none) := by
        unfold onAbnormalExit
        rw [if_neg hrm]
      simp only [iterateExits, step, ih (e + 1) r .error hr]
      refine congrArg₂ Prod.mk ?_ ?_
      · have h1 : e + 1 + k = e + (k + 1) := by omega
        have h2 : min (r + k) m = min (r + (k + 1)) m := by omega
        simp [h1, h2, ite_self]
      · simp [hr']

/-- C4: starting from a fresh session, k consecutive abnormal exits leave
errorCount = k, the error status (for k > 0), retryCount capped at
maxRetries, and exactly min k maxRetries scheduled respawns whose delays are
2000ms times the attempt number (2000, 4000, ...; the delay reads the
already incremented retryCount). In particular maxRetries + 1 abnormal exits
yield exactly maxRetries respawns - never an infinite respawn loop - and the
session record persists in terminal error state; the default maxRetries is
3. -/
theorem c4_retry_ceiling (maxRetries k : Nat) :
    iterateExits maxRetries freshCounters k =
      ({ errorCount := k, retryCount := min k maxRetries,
         status := if k = 0 then .starting else .error },
       (List.range (min k maxRetries)).map (fun i => 2000 * (i + 1))) ∧
    defaultSettings.maxRetries = 3 ∧
    ((iterateExits maxRetries freshCounters (maxRetries + 1)).2).length = maxRetries := by
  have hf : freshCounters = { errorCount := 0, retryCount := 0, status := .starting } := rfl
  refine ⟨?_, rfl, ?_⟩
  · rw [hf, iterateExits_eq maxRetries k 0 0 .starting (Nat.zero_le _)]
    simp
  · rw [hf, iterateExits_eq maxRetries (maxRetries + 1) 0 0 .starting (Nat.zero_le _)]
    simp

theorem lookup_append_right (m : List (String × RTSPStream)) (k : String) (v : RTSPStream)
    (h : m.lookup k = none) : (m ++ [(k, v)]).lookup k = some v := by
  rw [List.lookup_append, h]
  simp

theorem map_replace_of_absent (m : List (String × RTSPStream)) (k : String) (v : RTSPStream)
    (h : m.lookup k = none) :
    m.map (fun p => if p.1 == k then (k, v) else p) = m := by
  have hk := List.lookup_eq_none_iff.mp h
  have h2 : m.map (fun p => if p.1 == k then (k, v) else p) = m.map (fun p => p) := by
    apply List.map_congr_left
    intro p hp
    have h1 : k ≠ p.1 := by simpa using hk p hp
    have h3 : (p.1 == k) = false := beq_eq_false_iff_ne.mpr (Ne.symm h1)
    simp [h3]
  rw [h2, List.map_id']

theorem mapSet_of_absent (m : List (String × RTSPStream)) (k : String) (v : RTSPStream)
    (h : m.lookup k = none) : mapSet k v m = m ++ [(k, v)] := by
  unfold mapSet
  rw [if_neg]
  simp [h]

theorem mapSet_twice_of_absent (m : List (String × RTSPStream)) (k : String)
    (v w : RTSPStream) (h : m.lookup k = none) :
    mapSet k w (mapSet k v m) = m ++ [(k, w)] := by
  rw [mapSet_of_absent m k v h]
  unfold mapSet
  rw [if_pos (by rw [lookup_append_right m k v h]; rfl)]
  rw [List.map_append, map_replace_of_absent m k w h]
  simp


theorem startStream_existing (env : SpawnEnv) (st : ServiceState) (settings : RTSPSettings)
    (streamId rtspUrl : String) (ex : RTSPStream)
    (h : st.streams.lookup streamId = some ex) :
    startStream env st settings streamId rtspUrl =
      ({ success := true, url := some (playbackUrl settings.basePort streamId),
         port := some ex.port, error := none }, st) := by
  unfold startStream
  rw [h]

theorem startStream_new (env : SpawnEnv) (st : ServiceState) (settings : RTSPSettings)
    (streamId rtspUrl : String) (port : Nat)
    (h : st.streams.lookup streamId = none)
    (ha : env.ffmpegAvailable = true)
    (hp : findAvailablePort settings.basePort st.usedPorts = some port) :
    startStream env st settings streamId rtspUrl =
      ({ success := true, url := some (playbackUrl settings.basePort streamId),
         port := some settings.basePort, error := none },
       { st with
         usedPorts := st.usedPorts ++ [port],
         streams := st.streams ++ [(streamId, newSession env st port streamId rtspUrl)],
         nextPid := st.nextPid + 1 }) := by
  by_cases hpl : env.playlistAppears (st.tempDir ++ "/" ++ streamId)
  · simp [startStream, spawnFFmpeg, newSession, h, ha, hp, hpl,
      mapSet_twice_of_absent st.streams streamId]
  · simp [startStream, spawnFFmpeg, newSession, h, ha, hp, hpl,
      mapSet_twice_of_absent st.streams streamId]


theorem string_append_left_cancel (s t u : String) (h : s ++ t = s ++ u) : t = u := by
  apply String.ext
  have hd : s.data ++ t.data = s.data ++ u.data := by
    rw [← String.data_append, ← String.data_append, h]
  exact List.append_cancel_left hd

theorem startStream_unavailable (env : SpawnEnv) (st : ServiceState) (settings : RTSPSettings)
    (streamId rtspUrl : String)
    (h : st.streams.lookup streamId = none) (ha : env.ffmpegAvailable = false) :
    startStream env st settings streamId rtspUrl =
      ({ success := false, url := none, port := none,
         error := some "FFmpeg is not installed or not found in PATH" }, st) := by
  unfold startStream
  rw [h, ha]
  rfl

theorem startStream_noPort (env : SpawnEnv) (st : ServiceState) (settings : RTSPSettings)
    (streamId rtspUrl : String)
    (h : st.streams.lookup streamId = none) (ha : env.ffmpegAvailable = true)
    (hp : findAvailablePort settings.basePort st.usedPorts = none) :
    startStream env st settings streamId rtspUrl =
      ({ success := false, url := none, port := none,
         error := some "No available ports" }, st) := by
  unfold startStream
  rw [h, ha, hp]
  rfl

theorem sessionsWellFormed_start (env : SpawnEnv) (st : ServiceState)
    (settings : RTSPSettings) (streamId rtspUrl : String)
    (hwf : sessionsWellFormed st) :
    sessionsWellFormed (startStream env st settings streamId rtspUrl).2 := by
  cases hl : st.streams.lookup streamId with
  | some ex =>
    rw [startStream_existing env st settings streamId rtspUrl ex hl]
    exact hwf
  | none =>
    cases hA : env.ffmpegAvailable with
    | false =>
      rw [startStream_unavailable env st settings streamId rtspUrl hl hA]
      exact hwf
    | true =>
      cases hp : findAvailablePort settings.basePort st.usedPorts with
      | none =>
        rw [startStream_noPort env st settings streamId rtspUrl hl hA hp]
        exact hwf
      | some port =>
        rw [startStream_new env st settings streamId rtspUrl port hl hA hp]
        obtain ⟨h1, h2⟩ := hwf
        constructor
        · intro p hp'
          rcases List.mem_append.mp hp' with hmem | hmem
          · obtain ⟨ha1, ha2, ha3⟩ := h1 p hmem
            exact ⟨ha1, ha2, fun pid hpid => Nat.lt_succ_of_lt (ha3 pid hpid)⟩
          · have hp2 : p = (streamId, newSession env st port streamId rtspUrl) := by
              simpa using hmem
            subst hp2
            refine ⟨rfl, rfl, ?_⟩
            intro pid hpid
            have hpid2 : some st.nextPid = some pid := hpid
            have hpe : st.nextPid = pid := by injection hpid2
            show pid < st.nextPid + 1
            omega
        · rw [List.pairwise_append]
          refine ⟨h2, List.pairwise_singleton _ _, ?_⟩
          intro a ha' b hb'
          have hb2 : b = (streamId, newSession env st port streamId rtspUrl) := by
            simpa using hb'
          subst hb2
          cases haf : a.2.ffmpegProcess with
          | none => exact Or.inl rfl
          | some pid =>
            refine Or.inr ?_
            obtain ⟨_, _, ha3⟩ := h1 a ha'
            have hlt := ha3 pid haf
            intro hcontra
            have hcontra2 : some pid = some st.nextPid := hcontra
            have : pid = st.nextPid := by injection hcontra2
            omega

theorem sessionsWellFormed_stop (st : ServiceState) (streamId : String)
    (hwf : sessionsWellFormed st) :
    sessionsWellFormed (stopStream st streamId).2 := by
  unfold stopStream
  cases hl : st.streams.lookup streamId with
  | none => exact hwf
  | some s =>
    obtain ⟨h1, h2⟩ := hwf
    constructor
    · intro p hp
      exact h1 p (List.mem_of_mem_filter hp)
    · exact List.Pairwise.sublist (List.filter_sublist _) h2

theorem lookup_filter_ne (m : List (String × RTSPStream)) (k1 k2 : String) (hne : k1 ≠ k2) :
    (m.filter (fun p => p.1 != k1)).lookup k2 = m.lookup k2 := by
  induction m with
  | nil => rfl
  | cons p ps ih =>
    obtain ⟨pk, pv⟩ := p
    cases hb : (pk != k1) with
    | false =>
      have hpk : pk = k1 := by simpa using hb
      subst hpk
      have hk2 : (k2 == pk) = false := beq_eq_false_iff_ne.mpr fun hc => hne hc.symm
      simp [List.filter_cons, hb, List.lookup_cons, hk2, ih]
    | true =>
      cases hq : (k2 == pk) with
      | true => simp [List.filter_cons, hb, List.lookup_cons, hq]
      | false => simp [List.filter_cons, hb, List.lookup_cons, hq, ih]

theorem stopStream_frame (st : ServiceState) (id1 id2 : String) (hne : id1 ≠ id2) :
    ((stopStream st id1).2).streams.lookup id2 = st.streams.lookup id2 := by
  unfold stopStream
  cases hl : st.streams.lookup id1 with
  | none => rfl
  | some s => exact lookup_filter_ne st.streams id1 id2 hne


/-- C5: when a session for the stream id already exists, startStream spawns
nothing and changes no state, returning success with the same playback URL;
consequently two start calls in sequence without an intervening stop perform
exactly one spawn (nextPid advances once, during the first call) and both
calls resolve to the same playback URL. -/
theorem c5_start_idempotent :
    (∀ env st settings streamId rtspUrl ex,
        st.streams.lookup streamId = some ex →
        startStream env st settings streamId rtspUrl =
          ({ success := true, url := some (playbackUrl settings.basePort streamId),
             port := some ex.port, error := none }, st)) ∧
    (∀ env st settings streamId rtspUrl port,
        st.streams.lookup streamId = none →
        env.ffmpegAvailable = true →
        findAvailablePort settings.basePort st.usedPorts = some port →
        ((startStream env st settings streamId rtspUrl).1.success = true ∧
         (startStream env st settings streamId rtspUrl).1.url =
           some (playbackUrl settings.basePort streamId) ∧
         ((startStream env st settings streamId rtspUrl).2).nextPid = st.nextPid + 1 ∧
         startStream env (startStream env st settings streamId rtspUrl).2 settings
             streamId rtspUrl =
           ({ success := true, url := some (playbackUrl settings.basePort streamId),
              port := some port, error := none },
            (startStream env st settings streamId rtspUrl).2))) := by
  constructor
  · intro env st settings streamId rtspUrl ex h
    exact startStream_existing env st settings streamId rtspUrl ex h
  · intro env st settings streamId rtspUrl port h ha hp
    rw [startStream_new env st settings streamId rtspUrl port h ha hp]
    refine ⟨rfl, rfl, rfl, ?_⟩
    exact startStream_existing env _ settings streamId rtspUrl
      (newSession env st port streamId rtspUrl) (lookup_append_right _ _ _ h)

theorem c5_start_idempotent_witness :
    (startStream { ffmpegAvailable := true, playlistAppears := fun _ => true }
        { streams := [], usedPorts := [], tempDir := "/tmp/streamgrid-rtsp", nextPid := 50 }
        defaultSettings "cam1" "rtsp://host/stream").1.success = true ∧
    (startStream { ffmpegAvailable := true, playlistAppears := fun _ => true }
        { streams := [], usedPorts := [], tempDir := "/tmp/streamgrid-rtsp", nextPid := 50 }
        defaultSettings "cam1" "rtsp://host/stream").1.url =
      some (playbackUrl defaultSettings.basePort "cam1") ∧
    ((startStream { ffmpegAvailable := true, playlistAppears := fun _ => true }
        { streams := [], usedPorts := [], tempDir := "/tmp/streamgrid-rtsp", nextPid := 50 }
        defaultSettings "cam1" "rtsp://host/stream").2).nextPid = 50 + 1 ∧
    startStream { ffmpegAvailable := true, playlistAppears := fun _ => true }
        (startStream { ffmpegAvailable := true, playlistAppears := fun _ => true }
          { streams := [], usedPorts := [], tempDir := "/tmp/streamgrid-rtsp", nextPid := 50 }
          defaultSettings "cam1" "rtsp://host/stream").2 defaultSettings
        "cam1" "rtsp://host/stream" =
      ({ success := true, url := some (playbackUrl defaultSettings.basePort "cam1"),
         port := some 8100, error := none },
       (startStream { ffmpegAvailable := true, playlistAppears := fun _ => true }
          { streams := [], usedPorts := [], tempDir := "/tmp/streamgrid-rtsp", nextPid := 50 }
          defaultSettings "cam1" "rtsp://host/stream").2) :=
  c5_start_idempotent.2 { ffmpegAvailable := true, playlistAppears := fun _ => true }
    { streams := [], usedPorts := [], tempDir := "/tmp/streamgrid-rtsp", nextPid := 50 }
    defaultSettings "cam1" "rtsp://host/stream" 8100 rfl rfl (by decide)

/-- C9: in every well-formed service state (an invariant that holds for the
empty state and is preserved by startStream and stopStream, parts 2 and 3),
two sessions with different stream ids have distinct output directories
(each owns tempDir/streamId) and never share a live process handle (part 1);
and stopping one id leaves the other id's session-table entry - hence its
status, process handle and output directory - unchanged (part 4). -/
theorem c9_session_isolation :
    (∀ st, sessionsWellFormed st → ∀ p ∈ st.streams, ∀ q ∈ st.streams, p.1 ≠ q.1 →
        p.2.outputDir ≠ q.2.outputDir ∧
        ∀ pid, p.2.ffmpegProcess = some pid → q.2.ffmpegProcess ≠ some pid) ∧
    (∀ env st settings streamId rtspUrl, sessionsWellFormed st →
        sessionsWellFormed (startStream env st settings streamId rtspUrl).2) ∧
    (∀ st streamId, sessionsWellFormed st →
        sessionsWellFormed (stopStream st streamId).2) ∧
    (∀ st id1 id2, id1 ≠ id2 →
        ((stopStream st id1).2).streams.lookup id2 = st.streams.lookup id2) := by
  refine ⟨?_, sessionsWellFormed_start, sessionsWellFormed_stop, stopStream_frame⟩
  intro st hwf p hp q hq hne
  obtain ⟨h1, h2⟩ := hwf
  constructor
  · obtain ⟨_, hpd, _⟩ := h1 p hp
    obtain ⟨_, hqd, _⟩ := h1 q hq
    rw [hpd, hqd]
    intro hcontra
    exact hne (string_append_left_cancel (st.tempDir ++ "/") p.1 q.1 (by
      simpa [String.append_assoc] using hcontra))
  · have hsym : Symmetric (fun a b : String × RTSPStream =>
        a.2.ffmpegProcess = none ∨ a.2.ffmpegProcess ≠ b.2.ffmpegProcess) := by
      intro a b hab
      cases hbf : b.2.ffmpegProcess with
      | none => exact Or.inl rfl
      | some pid =>
        refine Or.inr ?_
        rcases hab with h | h
        · rw [h]
          simp
        · intro hc
          exact h (by rw [hbf, ← hc])
    have hRne : p ≠ q := fun hc => hne (congrArg Prod.fst hc)
    have hR := List.Pairwise.forall hsym h2 hp hq hRne
    intro pid hpid
    rcases hR with h | h
    · rw [h] at hpid
      exact absurd hpid (by simp)
    · intro hq2
      exact h (by rw [hpid, hq2])

theorem c9_session_isolation_witness :
    ((stopStream { streams := [], usedPorts := [], tempDir := "/t", nextPid := 0 } "cam1").2).streams.lookup "cam2" =
      ({ streams := [], usedPorts := [], tempDir := "/t", nextPid := 0 } : ServiceState).streams.lookup "cam2" :=
  c9_session_isolation.2.2.2 _ "cam1" "cam2" (by decide)

theorem rowItems_map_i (w h offset y : Nat) (l : List String) :
    ∀ c, (rowItems w h offset y l c).map GridItem.i = l := by
  induction l with
  | nil => intro c; rfl
  | cons id rest ih => intro c; simp [rowItems, ih]

theorem le_ceilMul (n c : Nat) (hc : 1 ≤ c) : n ≤ (n + c - 1) / c * c := by
  rcases n with _ | m
  · simp
  · have h1 := Nat.div_add_mod (m + c) c
    have h2 : (m + c) % c < c := Nat.mod_lt _ (by omega)
    have h3 : m + 1 + c - 1 = m + c := by omega
    rw [h3, Nat.mul_comm]
    omega

theorem placeAll_map_i (w h cols : Nat) (_hcols : 1 ≤ cols) :
    ∀ (rows : Nat) (ids : List String) (r : Nat), ids.length ≤ rows * cols →
      (placeAll w h cols rows ids r).map GridItem.i = ids := by
  intro rows
  induction rows with
  | zero =>
    intro ids r hlen
    have hnil : ids = [] := List.eq_nil_of_length_eq_zero (by omega)
    subst hnil
    rfl
  | succ rows ih =>
    intro ids r hlen
    cases ids with
    | nil => rfl
    | cons id rest =>
      have hdrop : ((id :: rest).drop (min cols (id :: rest).length)).length ≤ rows * cols := by
        have hmul : (rows + 1) * cols = rows * cols + cols := by ring
        simp only [List.length_drop]
        omega
      simp only [placeAll]
      rw [List.map_append, rowItems_map_i, ih _ _ hdrop, List.take_append_drop]

theorem pick1_mem (a : Cand) (l : List Cand) : pick1 a l ∈ a :: l := by
  induction l generalizing a with
  | nil => exact List.mem_singleton.mpr rfl
  | cons b bs ih =>
    have hstep : pick1 a (b :: bs) = pick1 (if scoreLt a.score b.score then b else a) bs := rfl
    have h := ih (if scoreLt a.score b.score then b else a)
    have hin : (if scoreLt a.score b.score then b else a) = b ∨
        (if scoreLt a.score b.score then b else a) = a := by
      by_cases hs : scoreLt a.score b.score <;> simp [hs]
    rw [hstep]
    rcases List.mem_cons.mp h with h1 | h1
    · rcases hin with h2 | h2
      · rw [h1, h2]
        exact List.mem_cons_of_mem _ (List.mem_cons_self _ _)
      · rw [h1, h2]
        exact List.mem_cons_self _ _
    · exact List.mem_cons_of_mem _ (List.mem_cons_of_mem _ h1)

theorem insertByW_perm (c : Cand) (l : List Cand) : List.Perm (insertByW c l) (c :: l) := by
  induction l with
  | nil => exact List.Perm.refl _
  | cons d ds ih =>
    unfold insertByW
    by_cases hd : d.w ≤ c.w
    · rw [if_pos hd]
      exact (List.Perm.cons d ih).trans (List.Perm.swap c d ds)
    · rw [if_neg hd]

theorem sortByW_perm (l : List Cand) : List.Perm (sortByW l) l := by
  induction l with
  | nil => exact List.Perm.refl _
  | cons c cs ih => exact (insertByW_perm c (sortByW cs)).trans (List.Perm.cons c ih)

theorem mem_allCands (allowed : List Nat) (n : Nat) (c : Cand)
    (h : c ∈ allCands allowed n) : ∃ w ∈ allowed, candOf n w = some c :=
  List.mem_filterMap.mp h

theorem candOf_spec (n w : Nat) (c : Cand) (h : candOf n w = some c) :
    c.w = w ∧ c.h = max 2 ((9 * w + 8) / 16) ∧ c.cols = GRID_COLS / w ∧
      c.rows = (n + c.cols - 1) / c.cols ∧ 1 ≤ c.cols := by
  unfold candOf at h
  by_cases hc : GRID_COLS / w < 1
  · simp [hc] at h
  · simp only [hc, if_neg, if_false, Option.some.injEq] at h
    subst h
    exact ⟨rfl, rfl, rfl, rfl, Nat.le_of_not_lt hc⟩

theorem bestCand_mem (allowed : List Nat) (n maxRows : Nat) (c : Cand)
    (h : bestCand allowed n maxRows = some c) : c ∈ allCands allowed n := by
  unfold bestCand at h
  split at h
  · next f fs heq =>
    simp only [Option.some.injEq] at h
    subst h
    exact List.mem_of_mem_filter (heq ▸ pick1_mem f fs)
  · next a as heq1 heq2 =>
    simp only [Option.some.injEq] at h
    subst h
    exact (sortByW_perm (allCands allowed n)).mem_iff.mp (heq2 ▸ pick1_mem a as)
  · exact absurd h (by simp)

theorem bestCand_default_isSome (n maxRows : Nat) :
    ∃ c, bestCand defaultAllowed n maxRows = some c := by
  have h12 : ∃ x, candOf n 12 = some x := ⟨_, rfl⟩
  obtain ⟨x, hx⟩ := h12
  have hne : allCands defaultAllowed n ≠ [] := by
    simp [allCands, defaultAllowed, List.filterMap_cons, hx]
  unfold bestCand
  split
  · exact ⟨_, rfl⟩
  · exact ⟨_, rfl⟩
  · next heq1 heq2 =>
    exfalso
    have hperm := sortByW_perm (allCands defaultAllowed n)
    rw [heq2] at hperm
    exact hne hperm.symm.eq_nil

/-- C6: for every ordered input id sequence and every row budget the tile
ids of the placements chooseLayouts returns are exactly the input sequence,
in order - no duplicates, none missing - and in particular the empty input
yields the empty placement list with no error. -/
theorem c6_layout_covers_input_ids (ids : List String) (maxRows : Nat) :
    (chooseLayouts ids defaultAllowed maxRows).map GridItem.i = ids := by
  obtain ⟨c, hc⟩ := bestCand_default_isSome ids.length maxRows
  have hmem := bestCand_mem defaultAllowed ids.length maxRows c hc
  obtain ⟨w, hwmem, hcw⟩ := mem_allCands defaultAllowed ids.length c hmem
  obtain ⟨hw, hh, _hcols, hrows, h1c⟩ := candOf_spec ids.length w c hcw
  unfold chooseLayouts
  rw [hc]
  unfold place
  apply placeAll_map_i c.w c.h c.cols h1c
  rw [hrows]
  exact le_ceilMul ids.length c.cols h1c


theorem rowItems_mem_spec (w h offset y : Nat) (l : List String) :
    ∀ (c : Nat) (p : GridItem), p ∈ rowItems w h offset y l c →
      p.w = w ∧ p.h = h ∧ p.y = y ∧ ∃ j, j < l.length ∧ p.x = offset + (c + j) * w := by
  induction l with
  | nil => intro c p hp; simp [rowItems] at hp
  | cons id rest ih =>
    intro c p hp
    rcases List.mem_cons.mp hp with h1 | h1
    · subst h1
      exact ⟨rfl, rfl, rfl, 0, by simp, by simp⟩
    · obtain ⟨hw, hh, hy, j, hj, hx⟩ := ih (c + 1) p h1
      refine ⟨hw, hh, hy, j + 1, by simpa using Nat.succ_lt_succ hj, ?_⟩
      rw [hx]
      have : c + 1 + j = c + (j + 1) := by omega
      rw [this]

theorem placeAll_y_lb (w h cols : Nat) :
    ∀ (rows : Nat) (ids : List String) (r : Nat) (p : GridItem),
      p ∈ placeAll w h cols rows ids r → r * h ≤ p.y := by
  intro rows
  induction rows with
  | zero => intro ids r p hp; simp [placeAll] at hp
  | succ rows ih =>
    intro ids r p hp
    cases ids with
    | nil => simp [placeAll] at hp
    | cons id rest =>
      simp only [placeAll] at hp
      rcases List.mem_append.mp hp with h1 | h1
      · obtain ⟨_, _, hy, _⟩ := rowItems_mem_spec _ _ _ _ _ _ _ h1
        omega
      · have := ih _ _ _ h1
        have hmul : (r + 1) * h = r * h + h := by ring
        omega

theorem placeAll_mem_spec (w h cols : Nat) (hcw : cols * w ≤ GRID_COLS) :
    ∀ (rows : Nat) (ids : List String) (r : Nat) (p : GridItem),
      p ∈ placeAll w h cols rows ids r →
      p.w = w ∧ p.h = h ∧ p.x + p.w ≤ GRID_COLS := by
  intro rows
  induction rows with
  | zero => intro ids r p hp; simp [placeAll] at hp
  | succ rows ih =>
    intro ids r p hp
    cases ids with
    | nil => simp [placeAll] at hp
    | cons id rest =>
      simp only [placeAll] at hp
      rcases List.mem_append.mp hp with h1 | h1
      · obtain ⟨hw, hh, _, j, hj, hx⟩ := rowItems_mem_spec _ _ _ _ _ _ _ h1
        refine ⟨hw, hh, ?_⟩
        have hjc : j < min cols (id :: rest).length := by
          have hlen : ((id :: rest).take (min cols (id :: rest).length)).length =
              min (min cols (id :: rest).length) (id :: rest).length := by
            simp [List.length_take]
          omega
        have h1w : (j + 1) * w ≤ min cols (id :: rest).length * w :=
          Nat.mul_le_mul_right _ (by omega)
        have h2w : min cols (id :: rest).length * w ≤ cols * w :=
          Nat.mul_le_mul_right _ (Nat.min_le_left _ _)
        have hdiv : (GRID_COLS - min cols (id :: rest).length * w) / 2 ≤
            GRID_COLS - min cols (id :: rest).length * w := Nat.div_le_self _ _
        have hsm : (j + 1) * w = j * w + w := by ring
        rw [hw, hx]
        simp only [Nat.zero_add]
        omega
      · exact ih _ _ _ h1

theorem rowItems_pairwise (w h offset y : Nat) (l : List String) :
    ∀ c, (rowItems w h offset y l c).Pairwise disjointItems := by
  induction l with
  | nil => intro c; simp [rowItems]
  | cons id rest ih =>
    intro c
    simp only [rowItems]
    refine List.Pairwise.cons ?_ (ih (c + 1))
    intro q hq
    obtain ⟨hqw, hqh, hqy, j, hj, hqx⟩ := rowItems_mem_spec _ _ _ _ _ _ _ hq
    have hle : offset + c * w + w ≤ q.x := by
      rw [hqx]
      have hmul : (c + 1) * w ≤ (c + 1 + j) * w := Nat.mul_le_mul_right _ (by omega)
      have hsm : (c + 1) * w = c * w + w := by ring
      omega
    exact Or.inl hle

theorem placeAll_pairwise (w h cols : Nat) :
    ∀ (rows : Nat) (ids : List String) (r : Nat),
      (placeAll w h cols rows ids r).Pairwise disjointItems := by
  intro rows
  induction rows with
  | zero => intro ids r; simp [placeAll]
  | succ rows ih =>
    intro ids r
    cases ids with
    | nil => simp [placeAll]
    | cons id rest =>
      simp only [placeAll]
      rw [List.pairwise_append]
      refine ⟨rowItems_pairwise _ _ _ _ _ 0, ih _ _, ?_⟩
      intro p hp q hq
      obtain ⟨hpw, hph, hpy, _⟩ := rowItems_mem_spec _ _ _ _ _ _ _ hp
      have hqy := placeAll_y_lb _ _ _ _ _ _ _ hq
      have hout : p.y + p.h ≤ q.y := by
        have hmul : (r + 1) * h = r * h + h := by ring
        omega
      exact Or.inr (Or.inr (Or.inl hout))

set_option maxHeartbeats 800000 in
/-- C10: every placement chooseLayouts returns lies within the 24-column
grid - x + w ≤ 24 with w ≥ 2 and h ≥ 2 (x ≥ 0 and y ≥ 0 hold because the
coordinates are naturals) - and the returned placements are pairwise
disjoint: distinct tiles occupy disjoint cell rectangles. -/
theorem c10_layout_in_grid_no_overlap (ids : List String) (maxRows : Nat) :
    (∀ p ∈ chooseLayouts ids defaultAllowed maxRows,
        2 ≤ p.w ∧ 2 ≤ p.h ∧ p.x + p.w ≤ GRID_COLS) ∧
    (chooseLayouts ids defaultAllowed maxRows).Pairwise disjointItems := by
  obtain ⟨c, hc⟩ := bestCand_default_isSome ids.length maxRows
  have hmem := bestCand_mem defaultAllowed ids.length maxRows c hc
  obtain ⟨w, hwmem, hcw⟩ := mem_allCands defaultAllowed ids.length c hmem
  obtain ⟨hw, hh, hcols, _, _⟩ := candOf_spec ids.length w c hcw
  unfold chooseLayouts
  rw [hc]
  unfold place
  constructor
  · intro p hp
    have hcwle : c.cols * c.w ≤ GRID_COLS := by
      rw [hcols, hw]
      exact Nat.div_mul_le_self _ _
    obtain ⟨hpw, hph, hpx⟩ := placeAll_mem_spec c.w c.h c.cols hcwle _ _ _ _ hp
    refine ⟨?_, ?_, hpx⟩
    · rw [hpw, hw]
      have hwval : w = 12 ∨ w = 8 ∨ w = 6 ∨ w = 4 ∨ w = 3 ∨ w = 2 := by
        simpa [defaultAllowed] using hwmem
      omega
    · rw [hph, hh]
      exact Nat.le_max_left _ _
  · exact placeAll_pairwise c.w c.h c.cols c.rows ids 0

theorem c10_layout_in_grid_no_overlap_witness :
    2 ≤ (GridItem.mk "a" 0 0 12 7).w ∧ 2 ≤ (GridItem.mk "a" 0 0 12 7).h ∧
      (GridItem.mk "a" 0 0 12 7).x + (GridItem.mk "a" 0 0 12 7).w ≤ GRID_COLS :=
  (c10_layout_in_grid_no_overlap ["a", "b"] 24).1 (GridItem.mk "a" 0 0 12 7) (by decide)

end StreamGrid
